import Mathlib

/-!
Verification of the customer-churn inference pipeline
(`src/utils.py`, `src/config.py`): a shallow embedding of the
`ModelLoader` class, its `predict` method, the module-level
`get_model_loader` singleton accessor, and the `CHURN_THRESHOLD`
constant, together with theorems settling the specification claims.

Machine floats of the Python code are modelled as rationals; the
pretrained neural network and the fitted preprocessing artifacts
(label encoder, one-hot encoder, standard scaler) are opaque files on
disk, so they are represented by their documented contracts: ordered
category lists for the encoders, per-column fit statistics for the
scaler, and an abstract scoring function plus an input width for the
network.
-/

namespace Churn

/-- `config.py`: `CHURN_THRESHOLD = 0.5`. -/
def CHURN_THRESHOLD : ℚ := 0.5

/-- Errors surfaced by artifact loading (`ModelLoader._load_all`):
a missing file (`FileNotFoundError`) or a failed deserialization
(any other exception); both are logged and re-raised unchanged. -/
inductive LoadError
  | fileNotFound
  | deserialization
deriving DecidableEq, Repr

/-- Errors surfaced by `ModelLoader.predict`: an unseen categorical
value rejected by a fitted encoder (sklearn `ValueError`), or a
width mismatch between the assembled row and the scaler/network. -/
inductive PredictError
  | encodingError (value : String)
  | inferenceError
deriving DecidableEq, Repr

/-- The trained network artifact (`model.h5`): an opaque scoring
function together with the input width it was trained on; invoking
it on a row of any other width fails. -/
structure NetModel where
  width : ℕ
  score : List ℚ → ℚ

/-- The raw per-request input record: the `input_data` dictionary
assembled by the presentation layer and consumed by `predict`. -/
structure RawCustomerRecord where
  geography : String
  gender : String
  age : ℚ
  credit_score : ℚ
  balance : ℚ
  estimated_salary : ℚ
  tenure : ℚ
  num_of_products : ℚ
  has_cr_card : ℚ
  is_active_member : ℚ
deriving DecidableEq, Repr

/-- `utils.py` class `ModelLoader` after a successful `_load_all`:
the four artifacts. The gender label encoder is its ordered
`classes_` list; the geography one-hot encoder is its ordered
`categories_[0]` list; the scaler is its per-column
(mean, standard deviation) fit statistics. -/
structure ModelLoader where
  model : NetModel
  label_encoder_gender : List String
  one_hot_encoder : List String
  scaler : List (ℚ × ℚ)

/-- `ModelLoader.predict`'s result: the tuple
`(probability, will_churn)` returned on line 100 of `utils.py`. -/
structure PredictionResult where
  probability : ℚ
  willChurn : Bool
deriving DecidableEq, Repr

/-- sklearn `LabelEncoder.transform` on a single value: the index of
the value in the fitted `classes_` list, failing on an unseen value
(`utils.py` line 72). -/
def labelTransform (classes : List String) (v : String) : Option ℕ :=
  classes.findIdx? (· = v)

/-- sklearn `OneHotEncoder.transform` on a single value: one binary
column per fitted category, in fitted category order, failing on an
unseen value (`utils.py` line 83, default `handle_unknown` is to
raise). -/
def oneHotTransform (cats : List String) (v : String) : Option (List ℚ) :=
  if v ∈ cats then some (cats.map fun c => if c = v then (1 : ℚ) else 0) else none

/-- sklearn `StandardScaler.transform` on a single row: per-column
`(x - mean) / std` using the fit statistics, failing when the row
width differs from the fitted width (`utils.py` line 93). -/
def scalerTransform (stats : List (ℚ × ℚ)) (xs : List ℚ) : Option (List ℚ) :=
  if xs.length = stats.length then
    some (List.zipWith (fun x p => (x - p.1) / p.2) xs stats)
  else none

/-- The feature row assembled by `predict` before scaling
(`utils.py` lines 70-90): the nine DataFrame columns CreditScore,
Gender code, Age, Tenure, Balance, NumOfProducts, HasCrCard,
IsActiveMember, EstimatedSalary in that order, then the one-hot
geography columns concatenated on the right. -/
def featureRow (m : ModelLoader) (r : RawCustomerRecord) :
    Except PredictError (List ℚ) :=
  match labelTransform m.label_encoder_gender r.gender with
  | none => .error (.encodingError r.gender)
  | some gcode =>
    match oneHotTransform m.one_hot_encoder r.geography with
    | none => .error (.encodingError r.geography)
    | some geo =>
      .ok ([r.credit_score, (gcode : ℚ), r.age, r.tenure, r.balance,
            r.num_of_products, r.has_cr_card, r.is_active_member,
            r.estimated_salary] ++ geo)

/-- `ModelLoader.predict` (`utils.py` lines 58-104): assemble the
feature row, scale it, invoke the network on the scaled row, and
return `(probability, probability > 0.5)`; every exception from an
inner step is logged and re-raised unchanged (lines 102-104). -/
def predict (m : ModelLoader) (r : RawCustomerRecord) :
    Except PredictError PredictionResult :=
  match featureRow m r with
  | .error e => .error e
  | .ok row =>
    match scalerTransform m.scaler row with
    | none => .error .inferenceError
    | some scaled =>
      if scaled.length = m.model.width then
        .ok ⟨m.model.score scaled, decide (m.model.score scaled > (0.5 : ℚ))⟩
      else .error .inferenceError

/-- `predict` as a state transformer over the per-call state it could
in principle touch: the `ModelLoader` instance (`self`) and the input
dictionary. The method body (`utils.py` lines 58-104) contains no
assignment to `self` or to `input_data`, so both come back unchanged. -/
def predictS (m : ModelLoader) (r : RawCustomerRecord) :
    Except PredictError PredictionResult × ModelLoader × RawCustomerRecord :=
  (predict m r, m, r)

/-- `ModelLoader.__init__` plus `_load_all` (`utils.py` lines 28-56):
read the four artifact files in order (model, gender encoder, one-hot
encoder, scaler); each argument is the outcome of the corresponding
disk read and deserialization; the first failure is re-raised and no
`ModelLoader` value is produced. -/
def loadAll (dmodel : Except LoadError NetModel)
    (dgender : Except LoadError (List String))
    (dgeo : Except LoadError (List String))
    (dscaler : Except LoadError (List (ℚ × ℚ))) :
    Except LoadError ModelLoader :=
  match dmodel with
  | .error e => .error e
  | .ok mo =>
    match dgender with
    | .error e => .error e
    | .ok g =>
      match dgeo with
      | .error e => .error e
      | .ok geo =>
        match dscaler with
        | .error e => .error e
        | .ok sc => .ok ⟨mo, g, geo, sc⟩

/-- `get_model_loader` (`utils.py` lines 111-116) acting on the
module-level cache `_model_loader`: `disk` is the outcome
`ModelLoader()` would have on this call (i.e. `loadAll` of the four
reads). Returns the call's result together with the cache afterwards;
when the constructor raises, the assignment to `_model_loader` never
executes, so the cache stays `none`. -/
def get_model_loader (cache : Option ModelLoader)
    (disk : Except LoadError ModelLoader) :
    Except LoadError ModelLoader × Option ModelLoader :=
  match cache with
  | some m => (.ok m, some m)
  | none =>
    match disk with
    | .ok m => (.ok m, some m)
    | .error e => (.error e, none)

/-! Concrete artifacts for witnesses: category sets and widths of the
Churn_Modelling data the app was trained on (three geographies, two
genders, twelve feature columns), with identity fit statistics and a
constant-½ network. -/

/-- A concrete network artifact of width 12 scoring ½ everywhere. -/
def exNet : NetModel := ⟨12, fun _ => 1 / 2⟩

/-- A concrete loaded artifact store. -/
def exLoader : ModelLoader :=
  ⟨exNet, ["Female", "Male"], ["France", "Germany", "Spain"],
   List.replicate 12 ((0 : ℚ), (1 : ℚ))⟩

/-- The spec's example record: France, Male, age 40, credit score
650, balance 0, salary 50000, tenure 5, one product, card holder,
active member. -/
def exRecord : RawCustomerRecord :=
  ⟨"France", "Male", 40, 650, 0, 50000, 5, 1, 1, 1⟩

/-- A record whose gender is outside the fitted category set. -/
def badGenderRecord : RawCustomerRecord :=
  ⟨"France", "Nonbinary", 40, 650, 0, 50000, 5, 1, 1, 1⟩

/-! ### Helper lemmas -/

/-- The label encoder rejects exactly the values outside its fitted
`classes_` list. -/
theorem labelTransform_eq_none_iff (classes : List String) (v : String) :
    labelTransform classes v = none ↔ v ∉ classes := by
  rw [labelTransform, List.findIdx?_eq_none_iff]
  constructor
  · intro h hv
    simpa using h v hv
  · intro hv x hx
    simp only [decide_eq_false_iff_not]
    intro hxv
    exact hv (hxv ▸ hx)

/-- A successfully label-encoded value was in the fitted class list. -/
theorem labelTransform_mem (classes : List String) (v : String) (i : ℕ)
    (h : labelTransform classes v = some i) : v ∈ classes := by
  by_contra hv
  rw [(labelTransform_eq_none_iff classes v).mpr hv] at h
  cases h

/-- A value in the fitted class list is label-encoded to some index. -/
theorem labelTransform_of_mem (classes : List String) (v : String)
    (hv : v ∈ classes) : ∃ i, labelTransform classes v = some i := by
  have h : (classes.findIdx? (· = v)).isSome = true := by
    rw [List.findIdx?_isSome, List.any_eq_true]
    exact ⟨v, hv, by simp⟩
  obtain ⟨i, hi⟩ := Option.isSome_iff_exists.mp h
  exact ⟨i, hi⟩

/-- Inversion of a successful `predict` call: it went through a
feature row and a scaled row of matching width, and the result is the
network score with the fixed 0.5 decision rule. -/
theorem predict_ok_inv (m : ModelLoader) (r : RawCustomerRecord)
    (res : PredictionResult) (h : predict m r = .ok res) :
    ∃ row scaled, featureRow m r = .ok row ∧
      scalerTransform m.scaler row = some scaled ∧
      scaled.length = m.model.width ∧
      res = ⟨m.model.score scaled, decide (m.model.score scaled > (0.5 : ℚ))⟩ := by
  unfold predict at h
  split at h
  · exact Except.noConfusion h
  next row hrow =>
    split at h
    · exact Except.noConfusion h
    next scaled hscaled =>
      split at h
      next hw =>
        injection h with h
        exact ⟨row, scaled, hrow, hscaled, hw, h.symm⟩
      · exact Except.noConfusion h

/-- Forward evaluation of `predict` from its three successful steps. -/
theorem predict_eq_of (m : ModelLoader) (r : RawCustomerRecord)
    (row scaled : List ℚ) (hrow : featureRow m r = .ok row)
    (hsc : scalerTransform m.scaler row = some scaled)
    (hw : scaled.length = m.model.width) :
    predict m r =
      .ok ⟨m.model.score scaled, decide (m.model.score scaled > (0.5 : ℚ))⟩ := by
  unfold predict
  simp only [hrow, hsc]
  rw [if_pos hw]

/-! ### Claim theorems -/

/-- C1: for every record accepted by the fitted encoders, `predict`
returns a probability in the unit interval (using the network's
documented sigmoid-output contract, modelled from the spec as the
hypothesis that the score lies in `[0,1]`) and a `willChurn` flag
equal to `probability > CHURN_THRESHOLD`, the fixed 0.5 threshold of
`config.py`, not configurable per call; a probability exactly equal
to 0.5 yields `willChurn = false`. -/
theorem C1_probability_and_threshold (m : ModelLoader) (r : RawCustomerRecord)
    (res : PredictionResult)
    (hnet : ∀ xs, 0 ≤ m.model.score xs ∧ m.model.score xs ≤ 1)
    (hok : predict m r = .ok res) :
    (0 ≤ res.probability ∧ res.probability ≤ 1) ∧
    res.willChurn = decide (res.probability > CHURN_THRESHOLD) ∧
    (res.probability = CHURN_THRESHOLD → res.willChurn = false) := by
  obtain ⟨row, scaled, hrow, hsc, hw, hres⟩ := predict_ok_inv m r res hok
  subst hres
  refine ⟨hnet scaled, rfl, ?_⟩
  intro hp
  simp only [PredictionResult.willChurn, decide_eq_false_iff_not, gt_iff_lt, not_lt]
  simp only [PredictionResult.probability] at hp
  rw [hp]
  norm_num [CHURN_THRESHOLD]

/-- Witness for C1 at a concrete artifact store and the spec's
example record. -/
theorem C1_probability_and_threshold_witness :
    (0 ≤ (PredictionResult.mk (1 / 2) false).probability ∧
      (PredictionResult.mk (1 / 2) false).probability ≤ 1) ∧
    (PredictionResult.mk (1 / 2) false).willChurn =
      decide ((PredictionResult.mk (1 / 2) false).probability > CHURN_THRESHOLD) ∧
    ((PredictionResult.mk (1 / 2) false).probability = CHURN_THRESHOLD →
      (PredictionResult.mk (1 / 2) false).willChurn = false) :=
  C1_probability_and_threshold exLoader exRecord ⟨1 / 2, false⟩
    (fun xs => by constructor <;> norm_num [exLoader, exNet])
    (by simp [predict, featureRow, labelTransform, oneHotTransform, scalerTransform,
          exLoader, exRecord, exNet, List.findIdx?]
        norm_num)

/-- C2: for every record accepted by the fitted encoders (and
artifacts whose widths agree, as at fit time), `predict` assembles
the feature row in exactly the fixed order credit score, gender code,
age, tenure, balance, number of products, has-credit-card,
is-active-member, estimated salary, then the one-hot geography
columns in fitted category order, applies the scaler's fit-time
standardization to that full row, and invokes the model on the scaled
row. -/
theorem C2_row_order_and_scaling (m : ModelLoader) (r : RawCustomerRecord)
    (gc : ℕ)
    (hg : labelTransform m.label_encoder_gender r.gender = some gc)
    (hgeo : r.geography ∈ m.one_hot_encoder)
    (hw : m.scaler.length = 9 + m.one_hot_encoder.length)
    (hmw : m.model.width = m.scaler.length) :
    ∃ scaled,
      scalerTransform m.scaler
        ([r.credit_score, (gc : ℚ), r.age, r.tenure, r.balance,
          r.num_of_products, r.has_cr_card, r.is_active_member,
          r.estimated_salary] ++
          m.one_hot_encoder.map (fun c => if c = r.geography then (1 : ℚ) else 0))
        = some scaled ∧
      predict m r =
        .ok ⟨m.model.score scaled,
             decide (m.model.score scaled > CHURN_THRESHOLD)⟩ := by
  have hrow : featureRow m r =
      .ok ([r.credit_score, (gc : ℚ), r.age, r.tenure, r.balance,
        r.num_of_products, r.has_cr_card, r.is_active_member,
        r.estimated_salary] ++
        m.one_hot_encoder.map (fun c => if c = r.geography then (1 : ℚ) else 0)) := by
    unfold featureRow oneHotTransform
    rw [hg, if_pos hgeo]
  have hlen :
      ([r.credit_score, (gc : ℚ), r.age, r.tenure, r.balance,
        r.num_of_products, r.has_cr_card, r.is_active_member,
        r.estimated_salary] ++
        m.one_hot_encoder.map
          (fun c => if c = r.geography then (1 : ℚ) else 0)).length
        = m.scaler.length := by
    simp [hw]
    omega
  have hscaled : scalerTransform m.scaler
      ([r.credit_score, (gc : ℚ), r.age, r.tenure, r.balance,
        r.num_of_products, r.has_cr_card, r.is_active_member,
        r.estimated_salary] ++
        m.one_hot_encoder.map (fun c => if c = r.geography then (1 : ℚ) else 0))
      = some (List.zipWith (fun x p => (x - p.1) / p.2)
          ([r.credit_score, (gc : ℚ), r.age, r.tenure, r.balance,
            r.num_of_products, r.has_cr_card, r.is_active_member,
            r.estimated_salary] ++
            m.one_hot_encoder.map
              (fun c => if c = r.geography then (1 : ℚ) else 0))
          m.scaler) := by
    unfold scalerTransform
    rw [if_pos hlen]
  exact ⟨_, hscaled,
    predict_eq_of m r _ _ hrow hscaled
      (by simp [List.length_zipWith, hlen, hmw]; omega)⟩

/-- Witness for C2 at a concrete artifact store and the spec's
example record. -/
theorem C2_row_order_and_scaling_witness :
    ∃ scaled,
      scalerTransform exLoader.scaler
        ([exRecord.credit_score, ((1 : ℕ) : ℚ), exRecord.age, exRecord.tenure,
          exRecord.balance, exRecord.num_of_products, exRecord.has_cr_card,
          exRecord.is_active_member, exRecord.estimated_salary] ++
          exLoader.one_hot_encoder.map
            (fun c => if c = exRecord.geography then (1 : ℚ) else 0))
        = some scaled ∧
      predict exLoader exRecord =
        .ok ⟨exLoader.model.score scaled,
             decide (exLoader.model.score scaled > CHURN_THRESHOLD)⟩ :=
  C2_row_order_and_scaling exLoader exRecord 1
    (by simp [labelTransform, exLoader, exRecord, List.findIdx?])
    (by simp [exLoader, exRecord])
    (by simp [exLoader])
    (by simp [exLoader, exNet])

/-- C3 counterexample: at a concrete store with three fitted
geography categories, the feature row built by `predict` has 12
columns, not 8 + 3 = 11: the claim's count omits the encoded gender
column. -/
theorem C3_counterexample :
    ∃ row, featureRow exLoader exRecord = .ok row ∧
      row.length ≠ 8 + exLoader.one_hot_encoder.length := by
  refine ⟨[650, 1, 40, 5, 0, 1, 1, 1, 50000, 1, 0, 0], ?_, by simp [exLoader]⟩
  simp [featureRow, labelTransform, oneHotTransform, exLoader, exRecord,
    List.findIdx?]

/-- C3 (amended): for every record accepted by the fitted encoders,
the feature row built by `predict` is an ordered numeric sequence of
fixed length 9 + (number of fitted geography categories): the 8 base
numeric/boolean fields, the encoded gender column, and one one-hot
column per fitted geography category. -/
theorem C3_feature_vector_length (m : ModelLoader) (r : RawCustomerRecord)
    (hg : r.gender ∈ m.label_encoder_gender)
    (hgeo : r.geography ∈ m.one_hot_encoder) :
    ∃ row, featureRow m r = .ok row ∧
      row.length = 9 + m.one_hot_encoder.length := by
  obtain ⟨gc, hgc⟩ := labelTransform_of_mem _ _ hg
  refine ⟨[r.credit_score, (gc : ℚ), r.age, r.tenure, r.balance,
    r.num_of_products, r.has_cr_card, r.is_active_member,
    r.estimated_salary] ++
    m.one_hot_encoder.map (fun c => if c = r.geography then (1 : ℚ) else 0),
    ?_, ?_⟩
  · unfold featureRow oneHotTransform
    rw [hgc, if_pos hgeo]
  · simp
    omega

/-- Witness for the amended C3 at a concrete artifact store. -/
theorem C3_feature_vector_length_witness :
    ∃ row, featureRow exLoader exRecord = .ok row ∧
      row.length = 9 + exLoader.one_hot_encoder.length :=
  C3_feature_vector_length exLoader exRecord (by decide) (by decide)

/-- C4: a record whose gender or geography value is outside the
respective encoder's fitted category set makes `predict` fail with an
`EncodingError` carrying the offending (unseen) value, returning no
result and substituting no default. -/
theorem C4_unseen_category_fails (m : ModelLoader) (r : RawCustomerRecord)
    (h : r.gender ∉ m.label_encoder_gender ∨ r.geography ∉ m.one_hot_encoder) :
    ∃ v, predict m r = .error (PredictError.encodingError v) ∧
      (v = r.gender ∨ v = r.geography) := by
  cases hl : labelTransform m.label_encoder_gender r.gender with
  | none =>
    refine ⟨r.gender, ?_, Or.inl rfl⟩
    unfold predict featureRow
    rw [hl]
  | some gc =>
    have hmem := labelTransform_mem _ _ _ hl
    have hgeo : r.geography ∉ m.one_hot_encoder := by
      cases h with
      | inl hgen => exact absurd hmem hgen
      | inr hgeo => exact hgeo
    refine ⟨r.geography, ?_, Or.inr rfl⟩
    unfold predict featureRow oneHotTransform
    rw [hl, if_neg hgeo]

/-- Witness for C4 at a record with an unseen gender value. -/
theorem C4_unseen_category_fails_witness :
    ∃ v, predict exLoader badGenderRecord =
        .error (PredictError.encodingError v) ∧
      (v = badGenderRecord.gender ∨ v = badGenderRecord.geography) :=
  C4_unseen_category_fails exLoader badGenderRecord (Or.inl (by decide))

/-- C5: running `predict` a second time with the identical record
against the store handed back by the first call yields a bit-identical
outcome, feature row, and final state: no hidden state influences the
output. -/
theorem C5_two_run_determinism (m : ModelLoader) (r : RawCustomerRecord) :
    (predictS (predictS m r).2.1 (predictS m r).2.2).1 = (predictS m r).1 ∧
    featureRow (predictS m r).2.1 (predictS m r).2.2 = featureRow m r ∧
    (predictS (predictS m r).2.1 (predictS m r).2.2).2 = (predictS m r).2 :=
  ⟨rfl, rfl, rfl⟩

/-- C6: the module-level cache is a lazily initialized process-wide
singleton: once a call of `get_model_loader` succeeds with a loader,
that loader is cached, and every subsequent call returns the same
cached instance with the cache unchanged, whatever a fresh disk load
would produce (so artifacts are not re-read and the cached loader is
not replaced). -/
theorem C6_singleton_cache (cache : Option ModelLoader)
    (disk : Except LoadError ModelLoader) (m : ModelLoader)
    (hfst : (get_model_loader cache disk).1 = .ok m) :
    (get_model_loader cache disk).2 = some m ∧
    ∀ disk2, get_model_loader (some m) disk2 = (.ok m, some m) := by
  refine ⟨?_, fun disk2 => rfl⟩
  cases cache with
  | some m0 =>
    simp only [get_model_loader] at hfst ⊢
    injection hfst with h
    rw [h]
  | none =>
    cases disk with
    | ok m1 =>
      simp only [get_model_loader] at hfst ⊢
      injection hfst with h
      rw [h]
    | error e =>
      simp only [get_model_loader] at hfst
      exact Except.noConfusion hfst

/-- Witness for C6: a cold-start call that succeeds from disk. -/
theorem C6_singleton_cache_witness :
    (get_model_loader none (.ok exLoader)).2 = some exLoader ∧
    ∀ disk2, get_model_loader (some exLoader) disk2 =
      (.ok exLoader, some exLoader) :=
  C6_singleton_cache none (.ok exLoader) exLoader rfl

/-- C7: if reading or deserializing any of the four artifact files
(model, gender encoder, geography encoder, scaler) fails, the
constructor fails with a LoadError that is propagated unrecovered
through `get_model_loader`, and no loader — hence no prediction
capability — is produced. -/
theorem C7_load_failure_propagates
    (dmodel : Except LoadError NetModel)
    (dgender dgeo : Except LoadError (List String))
    (dscaler : Except LoadError (List (ℚ × ℚ)))
    (h : (∃ e, dmodel = .error e) ∨ (∃ e, dgender = .error e) ∨
         (∃ e, dgeo = .error e) ∨ (∃ e, dscaler = .error e)) :
    ∃ e, loadAll dmodel dgender dgeo dscaler = .error e ∧
      get_model_loader none (loadAll dmodel dgender dgeo dscaler) =
        (.error e, none) := by
  cases dmodel with
  | error e => exact ⟨e, rfl, rfl⟩
  | ok mo =>
    cases dgender with
    | error e => exact ⟨e, rfl, rfl⟩
    | ok g =>
      cases dgeo with
      | error e => exact ⟨e, rfl, rfl⟩
      | ok geo =>
        cases dscaler with
        | error e => exact ⟨e, rfl, rfl⟩
        | ok sc =>
          exfalso
          rcases h with ⟨e, he⟩ | ⟨e, he⟩ | ⟨e, he⟩ | ⟨e, he⟩ <;>
            exact Except.noConfusion he

/-- Witness for C7: a missing model file on an otherwise intact
artifact set. -/
theorem C7_load_failure_propagates_witness :
    ∃ e, loadAll (.error .fileNotFound) (.ok ["Female", "Male"])
        (.ok ["France", "Germany", "Spain"])
        (.ok (List.replicate 12 (0, 1))) = .error e ∧
      get_model_loader none
        (loadAll (.error .fileNotFound) (.ok ["Female", "Male"])
          (.ok ["France", "Germany", "Spain"])
          (.ok (List.replicate 12 (0, 1)))) = (.error e, none) :=
  C7_load_failure_propagates _ _ _ _ (Or.inl ⟨.fileNotFound, rfl⟩)

/-- C8: every `predict` call either fails entirely with an error
propagated to the caller or fully succeeds with a well-formed
`PredictionResult` obeying the fixed decision rule; no partial result
is ever returned. -/
theorem C8_no_partial_result (m : ModelLoader) (r : RawCustomerRecord) :
    (∃ e, predict m r = .error e) ∨
    (∃ res, predict m r = .ok res ∧
      res.willChurn = decide (res.probability > CHURN_THRESHOLD)) := by
  cases hp : predict m r with
  | error e => exact Or.inl ⟨e, rfl⟩
  | ok res =>
    obtain ⟨row, scaled, hrow, hsc, hw, hres⟩ := predict_ok_inv m r res hp
    refine Or.inr ⟨res, rfl, ?_⟩
    subst hres
    rfl

/-- C9: `predict` has no side effects: its state-passing form hands
back the model loader (model, both encoders, scaler) and the input
record unchanged, and its outcome is the pure function `predict` of
exactly those two values. -/
theorem C9_no_side_effects (m : ModelLoader) (r : RawCustomerRecord) :
    (predictS m r).2.1 = m ∧ (predictS m r).2.2 = r ∧
    (predictS m r).1 = predict m r :=
  ⟨rfl, rfl, rfl⟩

/-- C10: a failed first load leaves the module-level cache unset, so
no partially initialized loader is ever cached, and a subsequent call
attempts the full load again (here: one that succeeds and caches). -/
theorem C10_failed_load_not_cached (e : LoadError) (m : ModelLoader) :
    get_model_loader none (.error e) = (.error e, none) ∧
    get_model_loader none (.ok m) = (.ok m, some m) :=
  ⟨rfl, rfl⟩

end Churn
